import Mathlib

/-!
Verification of the Book Catalog Service (`API_Biblioteca/app.py`), a Flask
service over a single SQLite table managed through peewee.  The table is
embedded as a list of rows in rowid order: SQLite assigns a fresh rowid equal
to one plus the largest rowid in use, so inserts append at the end, `DELETE`
filters the list and `UPDATE` maps over it without reordering.  JSON payload
values are embedded as `JVal`, with the Python conversions `str`, `int` and
`bool` (the latter two as applied by peewee field coercion, where a `null`
value reaches the database as NULL and violates the NOT NULL constraints).
-/

/-- A JSON value as it appears in a flat request payload after Flask's
`request.get_json` parsing: `null`, a boolean, an integer or a string. -/
inductive JVal where
  | null
  | bool (b : Bool)
  | int (n : Int)
  | str (s : String)
deriving DecidableEq, Repr

/-- Python `str()` applied to a parsed JSON value: `None`, `True`/`False`,
the decimal rendering of an integer, or the string itself. -/
def pyStr : JVal → String
  | JVal.null => "None"
  | JVal.bool true => "True"
  | JVal.bool false => "False"
  | JVal.int n => toString n
  | JVal.str s => s

/-- Python `int()` applied to a parsed JSON value; `none` means the call
raises (`TypeError` on `None`, `ValueError` on a non-numeric string). -/
def pyInt : JVal → Option Int
  | JVal.null => none
  | JVal.bool true => some 1
  | JVal.bool false => some 0
  | JVal.int n => some n
  | JVal.str s => s.trim.toInt?

/-- peewee `BooleanField` coercion on write: `None` passes through to SQL
NULL (`none` here), any other value goes through Python `bool()`. -/
def dbBool : JVal → Option Bool
  | JVal.null => none
  | JVal.bool b => some b
  | JVal.int n => some (decide (n ≠ 0))
  | JVal.str s => some (decide (s ≠ ""))

/-- peewee `CharField` coercion on write: `None` passes through to SQL NULL,
any other value goes through Python `str()`. -/
def dbStr : JVal → Option String
  | JVal.null => none
  | v => some (pyStr v)

/-- peewee `IntegerField` coercion on write: `None` passes through to SQL
NULL, any other value goes through Python `int()` (which may raise). -/
def dbInt : JVal → Option Int
  | JVal.null => none
  | v => pyInt v

/-- One row of the `livro` table.  `disponivel` is stored as a nullable
column (`Option Bool`): the schema declares it NOT NULL with default `True`,
and the invariant that it is never NULL is proved, not assumed. -/
structure Livro where
  id : Nat
  titulo : String
  autor : String
  ano : Int
  disponivel : Option Bool
deriving DecidableEq, Repr

/-- The table state, rows in rowid (natural retrieval) order. -/
abbrev Table := List Livro

/-- The two seed rows inserted by `init_db` into an empty table; SQLite
assigns rowids 1 and 2. -/
def seedTable : Table :=
  [ { id := 1, titulo := "Estruturas de Dados", autor := "N. Wirth",
      ano := 1976, disponivel := some true },
    { id := 2, titulo := "Clean Code", autor := "R. Martin",
      ano := 2008, disponivel := some true } ]

/-- Largest rowid in use (0 for an empty table). -/
def maxId (t : Table) : Nat :=
  t.foldr (fun r m => max r.id m) 0

/-- The rowid SQLite assigns to the next inserted row: one plus the largest
rowid in use. -/
def nextId (t : Table) : Nat :=
  maxId t + 1

/-- A flat JSON object payload: association list of field name to value. -/
abbrev Payload := List (String × JVal)

/-- Dictionary access `data[k]` / membership test `k in data`. -/
def pget : Payload → String → Option JVal
  | [], _ => none
  | (k, v) :: rest, key => if k = key then some v else pget rest key

/-- One element of the JSON array built by the list handlers: the dict with
keys `titulo`, `autor`, `ano`, `id`, `disponivel`. -/
structure Item where
  titulo : String
  autor : String
  ano : Int
  id : Nat
  disponivel : Option Bool
deriving DecidableEq, Repr

/-- Serialization of one row as done in `listar_livros`'s loop body. -/
def serialize (l : Livro) : Item :=
  { titulo := l.titulo, autor := l.autor, ano := l.ano, id := l.id,
    disponivel := l.disponivel }

/-- Handler `GET /api/livros` (`listar_livros`): serializes every row. -/
def listar_livros (t : Table) : List Item :=
  t.map serialize

/-- Outcome of `GET /api/livros/<id>` (`obter_livro`): either the dict with
`titulo`, `autor`, `ano` (no `id`, no `disponivel`), or the uncaught
`IndexError` raised by `livro[0]` on an empty result set. -/
inductive GetResult where
  | ok (titulo autor : String) (ano : Int)
  | indexError
deriving DecidableEq, Repr

/-- Handler `GET /api/livros/<id>` (`obter_livro`): selects rows with the
given id and unconditionally reads the first element of the result. -/
def obter_livro (t : Table) (lid : Nat) : GetResult :=
  match t.filter (fun r => r.id = lid) with
  | [] => GetResult.indexError
  | l :: _ => GetResult.ok l.titulo l.autor l.ano

/-- Outcome of `POST /api/livros` (`criar_livro`): success message,
`abort(400, ...)`, or the uncaught error raised by `int(data["ano"])`. -/
inductive CreateResult where
  | created (msg : String)
  | badRequest (desc : String)
  | intConversionError
deriving DecidableEq, Repr

/-- Handler `POST /api/livros` (`criar_livro`): aborts 400 unless `titulo`,
`autor` and `ano` are all present; otherwise inserts a row with
`str(...).strip()` applied to `titulo` and `autor`, `int(...)` applied to
`ano`, a fresh rowid, and `disponivel` left to its default `True` (the
payload's `disponivel`, if any, is not forwarded). -/
def criar_livro (t : Table) (p : Payload) : CreateResult × Table :=
  if (pget p "titulo").isSome ∧ (pget p "autor").isSome ∧ (pget p "ano").isSome then
    match pget p "titulo", pget p "autor", pget p "ano" with
    | some vt, some va, some vn =>
      match pyInt vn with
      | none => (CreateResult.intConversionError, t)
      | some n =>
        (CreateResult.created "Livro adicionado com sucesso",
         t ++ [{ id := nextId t, titulo := (pyStr vt).trim,
                 autor := (pyStr va).trim, ano := n, disponivel := some true }])
    | _, _, _ => (CreateResult.badRequest "Campos obrigatórios: titulo, autor, ano", t)
  else
    (CreateResult.badRequest "Campos obrigatórios: titulo, autor, ano", t)

/-- Handler `DELETE /api/livros/<id>` (`remover_livro`): executes
`DELETE WHERE id = lid` and returns the success message unconditionally. -/
def remover_livro (t : Table) (lid : Nat) : String × Table :=
  ("Livro removido com sucesso!", t.filter (fun r => ¬ r.id = lid))

/-- Outcome of the two PATCH handlers: success message, an uncaught
`KeyError` on a missing payload field, or an uncaught database-layer error
(NOT NULL `IntegrityError`, or `ValueError` from `int()` coercion); in the
error cases the UPDATE statement does not run and the table is unchanged. -/
inductive PatchResult where
  | ok (msg : String)
  | keyError (key : String)
  | dbError
deriving DecidableEq, Repr

/-- Handler `PATCH /api/livros/<id>/disponibilidade`
(`atualizar_disponibilidade`): reads `data['disponivel']` with no presence
check, then executes `UPDATE livro SET disponivel = ... WHERE id = lid`. -/
def atualizar_disponibilidade (t : Table) (lid : Nat) (p : Payload) :
    PatchResult × Table :=
  match pget p "disponivel" with
  | none => (PatchResult.keyError "disponivel", t)
  | some v =>
    match dbBool v with
    | none => (PatchResult.dbError, t)
    | some b =>
      (PatchResult.ok "Livro atualizado com sucesso",
       t.map (fun r => if r.id = lid then { r with disponivel := some b } else r))

/-- Handler `GET /api/livros/disponiveis` (`listar_livros_disponiveis`):
builds the serialized list of rows with `disponivel = true` but falls off
the end of the function without returning it, so the view yields `None`. -/
def listar_livros_disponiveis (t : Table) : Option (List Item) :=
  let lst := (t.filter (fun r => r.disponivel = some true)).map serialize
  none

/-- The list `listar_livros_disponiveis` computes and then drops. -/
def listar_disponiveis_lst (t : Table) : List Item :=
  (t.filter (fun r => r.disponivel = some true)).map serialize

/-- Handler `PATCH /api/livros/<id>/editar` (`editar`): reads
`data['disponivel']`, `data['autor']`, `data['titulo']`, `data['ano']` in
that order (raising `KeyError` at the first missing one), then executes an
UPDATE of all four columns with the peewee field coercions applied. -/
def editar (t : Table) (lid : Nat) (p : Payload) : PatchResult × Table :=
  match pget p "disponivel" with
  | none => (PatchResult.keyError "disponivel", t)
  | some vd =>
  match pget p "autor" with
  | none => (PatchResult.keyError "autor", t)
  | some va =>
  match pget p "titulo" with
  | none => (PatchResult.keyError "titulo", t)
  | some vt =>
  match pget p "ano" with
  | none => (PatchResult.keyError "ano", t)
  | some vn =>
  match dbBool vd, dbStr va, dbStr vt, dbInt vn with
  | some d, some a, some s, some n =>
    (PatchResult.ok "Livro editado com sucesso",
     t.map (fun r => if r.id = lid then
       { id := r.id, titulo := s, autor := a, ano := n, disponivel := some d }
       else r))
  | _, _, _, _ => (PatchResult.dbError, t)

/-! Helper lemmas about rowid assignment and row-preserving maps. -/

theorem id_le_maxId {t : Table} {r : Livro} (h : r ∈ t) : r.id ≤ maxId t := by
  induction t with
  | nil => cases h
  | cons a rest ih =>
    rcases List.mem_cons.mp h with rfl | hm
    · exact le_max_left _ _
    · exact le_trans (ih hm) (le_max_right _ _)

theorem nextId_not_mem {t : Table} {r : Livro} (h : r ∈ t) : r.id ≠ nextId t := by
  have := id_le_maxId h
  unfold nextId
  omega

theorem forall₂_map_self {α : Type} (P : α → α → Prop) (f : α → α)
    (l : List α) (h : ∀ x ∈ l, P x (f x)) : List.Forall₂ P l (l.map f) := by
  induction l with
  | nil => exact List.Forall₂.nil
  | cons a rest ih =>
    exact List.Forall₂.cons (h a (List.mem_cons_self a rest))
      (ih (fun x hx => h x (List.mem_cons_of_mem a hx)))

/-! Claim theorems. -/

/-- Claim C1 (code bug): the claim and the route's documented response codes
say a lookup of a non-existent id returns a not-found error (HTTP 404).  On
the seed table, id 3 matches no record, and `obter_livro` instead hits the
uncaught `IndexError` from `livro[0]` on an empty result set (an unhandled
lookup failure, HTTP 500). -/
theorem obter_livro_absent_raises :
    (∀ r ∈ seedTable, r.id ≠ 3) ∧ obter_livro seedTable 3 = GetResult.indexError := by
  decide

/-- Claim C2 (code bug): the claim says listing available books returns the
JSON array of records with the available flag true.  In the seed state such
records exist, yet the handler returns `none`: it computes the filtered list
but has no reachable return statement. -/
theorem listar_disponiveis_returns_nothing :
    (∃ r ∈ seedTable, r.disponivel = some true) ∧
    listar_livros_disponiveis seedTable = none := by
  decide

/-- Claim C4 (code bug): the claim and the interface table say a payload
lacking `disponivel` yields HTTP 400 with the table unchanged.  On the empty
payload the code instead raises an uncaught `KeyError "disponivel"`
(HTTP 500); the table-unchanged half does hold, since the UPDATE never
runs. -/
theorem atualizar_disponibilidade_missing_raises :
    atualizar_disponibilidade seedTable 1 [] =
      (PatchResult.keyError "disponivel", seedTable) := rfl

/-- Claim C5: a create payload missing at least one of `titulo`, `autor`,
`ano` is rejected with the 400 abort and the table is unchanged. -/
theorem criar_livro_missing_field (t : Table) (p : Payload)
    (h : pget p "titulo" = none ∨ pget p "autor" = none ∨ pget p "ano" = none) :
    criar_livro t p =
      (CreateResult.badRequest "Campos obrigatórios: titulo, autor, ano", t) := by
  unfold criar_livro
  rcases h with h | h | h <;> simp [h]

/-- Witness for C5: the empty payload on the seed table. -/
theorem criar_livro_missing_field_witness :
    criar_livro seedTable [] =
      (CreateResult.badRequest "Campos obrigatórios: titulo, autor, ano", seedTable) :=
  criar_livro_missing_field seedTable [] (Or.inl rfl)

/-- Claim C3: a create payload with string `titulo` and `autor` and integer
`ano` (and any `disponivel` the client cares to send, since `p` is
arbitrary) appends one row with the trimmed strings, the supplied year,
`disponivel = some true`, and a fresh id distinct from every existing id. -/
theorem criar_livro_valid_payload (t : Table) (p : Payload)
    (s a : String) (n : Int)
    (ht : pget p "titulo" = some (JVal.str s))
    (ha : pget p "autor" = some (JVal.str a))
    (hn : pget p "ano" = some (JVal.int n)) :
    criar_livro t p =
      (CreateResult.created "Livro adicionado com sucesso",
       t ++ [{ id := nextId t, titulo := s.trim, autor := a.trim,
               ano := n, disponivel := some true }]) ∧
    (∀ r ∈ t, r.id ≠ nextId t) := by
  constructor
  · simp [criar_livro, ht, ha, hn, pyInt, pyStr]
  · intro r hr
    exact nextId_not_mem hr

/-- Witness for C3: a payload that also supplies `disponivel = false`, which
the code drops; the stored row still has `disponivel = some true`. -/
theorem criar_livro_valid_payload_witness :
    criar_livro seedTable
        [("titulo", JVal.str " Dom Casmurro "), ("autor", JVal.str "Machado de Assis"),
         ("ano", JVal.int 1899), ("disponivel", JVal.bool false)] =
      (CreateResult.created "Livro adicionado com sucesso",
       seedTable ++ [{ id := nextId seedTable, titulo := " Dom Casmurro ".trim,
                       autor := "Machado de Assis".trim, ano := 1899,
                       disponivel := some true }]) ∧
    (∀ r ∈ seedTable, r.id ≠ nextId seedTable) :=
  criar_livro_valid_payload seedTable
    [("titulo", JVal.str " Dom Casmurro "), ("autor", JVal.str "Machado de Assis"),
     ("ano", JVal.int 1899), ("disponivel", JVal.bool false)]
    " Dom Casmurro " "Machado de Assis" 1899 (by decide) (by decide) (by decide)

/-- Claim C10: a create payload whose `titulo` or `autor` is any JSON value
(in particular a number, boolean or null, not a string) is not rejected: the
row stores Python's `str()` rendering of the value, trimmed. -/
theorem criar_livro_nonstring_fields (t : Table) (p : Payload)
    (vt va : JVal) (n : Int)
    (ht : pget p "titulo" = some vt)
    (ha : pget p "autor" = some va)
    (hn : pget p "ano" = some (JVal.int n)) :
    criar_livro t p =
      (CreateResult.created "Livro adicionado com sucesso",
       t ++ [{ id := nextId t, titulo := (pyStr vt).trim,
               autor := (pyStr va).trim, ano := n, disponivel := some true }]) := by
  simp [criar_livro, ht, ha, hn, pyInt]

/-- Witness for C10: `titulo` a number and `autor` a boolean; the stored row
has `titulo = "42"` and `autor = "True"`, and the request is not rejected. -/
theorem criar_livro_nonstring_fields_witness :
    criar_livro seedTable
        [("titulo", JVal.int 42), ("autor", JVal.bool true), ("ano", JVal.int 2020)] =
      (CreateResult.created "Livro adicionado com sucesso",
       seedTable ++ [{ id := nextId seedTable, titulo := (pyStr (JVal.int 42)).trim,
                       autor := (pyStr (JVal.bool true)).trim, ano := 2020,
                       disponivel := some true }]) :=
  criar_livro_nonstring_fields seedTable
    [("titulo", JVal.int 42), ("autor", JVal.bool true), ("ano", JVal.int 2020)]
    (JVal.int 42) (JVal.bool true) 2020 (by decide) (by decide) (by decide)

/-- Claim C6: the delete handler always reports success; the resulting table
keeps exactly the rows whose id differs from the given one (so a matching
row is removed, no other row is affected), and when no row matches the
operation is a no-op. -/
theorem remover_livro_spec (t : Table) (lid : Nat) :
    (remover_livro t lid).1 = "Livro removido com sucesso!" ∧
    (∀ r ∈ (remover_livro t lid).2, r ∈ t ∧ r.id ≠ lid) ∧
    (∀ r ∈ t, r.id ≠ lid → r ∈ (remover_livro t lid).2) ∧
    ((∀ r ∈ t, r.id ≠ lid) → (remover_livro t lid).2 = t) := by
  refine ⟨rfl, ?_, ?_, ?_⟩
  · intro r hr
    have h := List.mem_filter.mp hr
    exact ⟨h.1, by simpa using h.2⟩
  · intro r hr hne
    exact List.mem_filter.mpr ⟨hr, by simpa using hne⟩
  · intro hall
    apply List.filter_eq_self.mpr
    intro r hr
    simpa using hall r hr

/-- Claim C7: on a payload carrying a boolean `disponivel` and an id present
in the table, the availability update succeeds and relates the old and new
tables row by row: ids, titles, authors and years are unchanged, the
matching row gets the new flag, and every non-matching row is untouched. -/
theorem atualizar_disponibilidade_frame (t : Table) (lid : Nat) (p : Payload)
    (b : Bool)
    (hp : pget p "disponivel" = some (JVal.bool b))
    (hex : ∃ r ∈ t, r.id = lid) :
    (atualizar_disponibilidade t lid p).1 =
      PatchResult.ok "Livro atualizado com sucesso" ∧
    List.Forall₂ (fun r r2 =>
        r2.id = r.id ∧ r2.titulo = r.titulo ∧ r2.autor = r.autor ∧
        r2.ano = r.ano ∧ (r.id = lid → r2.disponivel = some b) ∧
        (r.id ≠ lid → r2 = r))
      t (atualizar_disponibilidade t lid p).2 := by
  unfold atualizar_disponibilidade
  rw [hp]
  simp only [dbBool]
  refine ⟨trivial, ?_⟩
  apply forall₂_map_self
  intro r hr
  by_cases hid : r.id = lid
  · simp [hid]
  · simp [hid]

/-- Witness for C7: flipping id 1 of the seed table to unavailable. -/
theorem atualizar_disponibilidade_frame_witness :
    (atualizar_disponibilidade seedTable 1 [("disponivel", JVal.bool false)]).1 =
      PatchResult.ok "Livro atualizado com sucesso" ∧
    List.Forall₂ (fun r r2 =>
        r2.id = r.id ∧ r2.titulo = r.titulo ∧ r2.autor = r.autor ∧
        r2.ano = r.ano ∧ (r.id = 1 → r2.disponivel = some false) ∧
        (r.id ≠ 1 → r2 = r))
      seedTable
      (atualizar_disponibilidade seedTable 1 [("disponivel", JVal.bool false)]).2 :=
  atualizar_disponibilidade_frame seedTable 1 [("disponivel", JVal.bool false)]
    false (by decide) ⟨seedTable.head (by decide), by decide⟩

/-- Claim C8: on a payload carrying all four fields (string title and
author, integer year, boolean flag), the full-edit handler succeeds; the
matching row is overwritten with exactly the four supplied values (its id is
kept), every other row is untouched, and when no row matches the table is
unchanged (no row is created). -/
theorem editar_spec (t : Table) (lid : Nat) (p : Payload)
    (s a : String) (n : Int) (d : Bool)
    (ht : pget p "titulo" = some (JVal.str s))
    (ha : pget p "autor" = some (JVal.str a))
    (hn : pget p "ano" = some (JVal.int n))
    (hd : pget p "disponivel" = some (JVal.bool d)) :
    (editar t lid p).1 = PatchResult.ok "Livro editado com sucesso" ∧
    List.Forall₂ (fun r r2 =>
        (r.id = lid → r2 = { id := r.id, titulo := s, autor := a, ano := n,
                             disponivel := some d }) ∧
        (r.id ≠ lid → r2 = r))
      t (editar t lid p).2 ∧
    ((∀ r ∈ t, r.id ≠ lid) → (editar t lid p).2 = t) := by
  unfold editar
  rw [hd, ha, ht, hn]
  simp only [dbBool, dbStr, dbInt, pyStr, pyInt]
  refine ⟨trivial, ?_, ?_⟩
  · apply forall₂_map_self
    intro r hr
    by_cases hid : r.id = lid
    · simp [hid]
    · simp [hid]
  · intro hall
    have : ∀ r ∈ t, (if r.id = lid then
        ({ id := r.id, titulo := s, autor := a, ano := n,
           disponivel := some d } : Livro) else r) = r := by
      intro r hr
      simp [hall r hr]
    rw [List.map_congr_left this]
    simp

/-- Witness for C8: editing id 2 of the seed table. -/
theorem editar_spec_witness :
    (editar seedTable 2
        [("titulo", JVal.str "Refactoring"), ("autor", JVal.str "M. Fowler"),
         ("ano", JVal.int 1999), ("disponivel", JVal.bool false)]).1 =
      PatchResult.ok "Livro editado com sucesso" ∧
    List.Forall₂ (fun r r2 =>
        (r.id = 2 → r2 = { id := r.id, titulo := "Refactoring",
                           autor := "M. Fowler", ano := 1999,
                           disponivel := some false }) ∧
        (r.id ≠ 2 → r2 = r))
      seedTable
      (editar seedTable 2
        [("titulo", JVal.str "Refactoring"), ("autor", JVal.str "M. Fowler"),
         ("ano", JVal.int 1999), ("disponivel", JVal.bool false)]).2 ∧
    ((∀ r ∈ seedTable, r.id ≠ 2) →
      (editar seedTable 2
        [("titulo", JVal.str "Refactoring"), ("autor", JVal.str "M. Fowler"),
         ("ano", JVal.int 1999), ("disponivel", JVal.bool false)]).2 = seedTable) :=
  editar_spec seedTable 2
    [("titulo", JVal.str "Refactoring"), ("autor", JVal.str "M. Fowler"),
     ("ano", JVal.int 1999), ("disponivel", JVal.bool false)]
    "Refactoring" "M. Fowler" 1999 false (by decide) (by decide) (by decide) (by decide)

/-! The table invariant and its preservation by every handler. -/

/-- The data-model invariant: no two rows share an id, and `disponivel` is
never NULL. -/
def TableInv (t : Table) : Prop :=
  (t.map (fun r => r.id)).Nodup ∧ ∀ r ∈ t, r.disponivel ≠ none

theorem criar_livro_preserves_inv (t : Table) (p : Payload) (h : TableInv t) :
    TableInv (criar_livro t p).2 := by
  unfold criar_livro
  split
  · split
    · split
      · exact h
      · constructor
        · rw [List.map_append]
          rw [List.nodup_append]
          refine ⟨h.1, List.nodup_singleton _, ?_⟩
          intro x hx hx1
          simp only [List.map_cons, List.map_nil, List.mem_singleton] at hx1
          rcases List.mem_map.mp hx with ⟨r, hr, rfl⟩
          exact nextId_not_mem hr hx1
        · intro r hr
          rcases List.mem_append.mp hr with hr | hr
          · exact h.2 r hr
          · simp only [List.mem_singleton] at hr
            subst hr
            simp
    · exact h
  · exact h

theorem remover_livro_preserves_inv (t : Table) (lid : Nat) (h : TableInv t) :
    TableInv (remover_livro t lid).2 := by
  constructor
  · exact List.Nodup.sublist (List.Sublist.map _ (List.filter_sublist t)) h.1
  · intro r hr
    exact h.2 r (List.mem_filter.mp hr).1

/-- A per-row map that keeps the id and never nullifies the flag preserves
the invariant; this is the shape of both UPDATE handlers. -/
theorem tableInv_map (t : Table) (f : Livro → Livro)
    (hid : ∀ r, (f r).id = r.id)
    (hd : ∀ r, r.disponivel ≠ none → (f r).disponivel ≠ none)
    (h : TableInv t) : TableInv (t.map f) := by
  constructor
  · rw [List.map_map]
    have : ∀ r ∈ t, ((fun r : Livro => r.id) ∘ f) r = (fun r : Livro => r.id) r := by
      intro r hr
      exact hid r
    rw [List.map_congr_left this]
    exact h.1
  · intro r hr
    rcases List.mem_map.mp hr with ⟨r0, hr0, rfl⟩
    exact hd r0 (h.2 r0 hr0)

theorem atualizar_disponibilidade_preserves_inv (t : Table) (lid : Nat)
    (p : Payload) (h : TableInv t) :
    TableInv (atualizar_disponibilidade t lid p).2 := by
  unfold atualizar_disponibilidade
  split
  · exact h
  · split
    · exact h
    · apply tableInv_map t _ ?_ ?_ h
      · intro r
        by_cases hid : r.id = lid <;> simp [hid]
      · intro r hr
        by_cases hid : r.id = lid <;> simp [hid, hr]

theorem editar_preserves_inv (t : Table) (lid : Nat) (p : Payload)
    (h : TableInv t) : TableInv (editar t lid p).2 := by
  unfold editar
  split
  · exact h
  · split
    · exact h
    · split
      · exact h
      · split
        · exact h
        · split
          · apply tableInv_map t _ ?_ ?_ h
            · intro r
              by_cases hid : r.id = lid <;> simp [hid]
            · intro r hr
              by_cases hid : r.id = lid <;> simp [hid, hr]
          · exact h

/-- The set of table states reachable from the seeded database through the
four mutating handlers, with arbitrary ids and payloads. -/
inductive Reach : Table → Prop where
  | seed : Reach seedTable
  | create (t : Table) (p : Payload) : Reach t → Reach (criar_livro t p).2
  | remove (t : Table) (lid : Nat) : Reach t → Reach (remover_livro t lid).2
  | patch (t : Table) (lid : Nat) (p : Payload) :
      Reach t → Reach (atualizar_disponibilidade t lid p).2
  | edit (t : Table) (lid : Nat) (p : Payload) :
      Reach t → Reach (editar t lid p).2

/-- Claim C9: in every reachable table state no two rows share an id and the
availability flag is never NULL; every handler (create, delete, availability
update, full edit) preserves this invariant. -/
theorem reachable_table_invariant (t : Table) (h : Reach t) : TableInv t := by
  induction h with
  | seed => exact ⟨by decide, by decide⟩
  | create t p _ ih => exact criar_livro_preserves_inv t p ih
  | remove t lid _ ih => exact remover_livro_preserves_inv t lid ih
  | patch t lid p _ ih => exact atualizar_disponibilidade_preserves_inv t lid p ih
  | edit t lid p _ ih => exact editar_preserves_inv t lid p ih

/-- Witness for C9: the seed state is reachable and satisfies the
invariant. -/
theorem reachable_table_invariant_witness : TableInv seedTable :=
  reachable_table_invariant seedTable Reach.seed
